import Mathlib

/-! Shallow embedding of the greentic distributor client's reference-resolution
and content-addressed cache engine, translated from src/dist.rs and
src/oci_components.rs.  The filesystem cache is modelled as an association
list from the trimmed (64-hex) digest key to the entry's artifact bytes and
optional metadata sidecar; presence of an entry models existence of the
`component.wasm` file.  SHA-256 hex encoding is abstracted as a parameter
`h : Bytes → String` threaded through every function that hashes, since all
of the code's behaviour is invariant in the concrete hash.  External
collaborators (the OCI reference grammar, the registry client, the HTTP
client, the filesystem read) enter as explicit outcome parameters. -/

set_option maxRecDepth 10000

/-- Artifact bytes, as in Rust `&[u8]` / `Vec<u8>`. -/
abbrev Bytes := List Nat

/-- Boolean string prefix test: the character-list model of Rust's
`str::starts_with` (extensionally `String.startsWith`, stated on `.data` so
that concrete instances evaluate inside the kernel). -/
def str_starts (s p : String) : Bool :=
  List.isPrefixOf p.data s.data

/-- Embeds `trim_digest_prefix` (duplicated verbatim in src/dist.rs and
src/oci_components.rs): strip a leading "sha256:" if present, otherwise strip
all leading '@' characters ("sha256:" is ASCII, so stripping it is dropping
7 characters). -/
def trim_digest_pre (digest : String) : String :=
  if str_starts digest "sha256:" then String.mk (digest.data.drop 7)
  else String.mk (digest.data.dropWhile (· == '@'))

/-- Embeds `normalize_digest` (duplicated in src/dist.rs and
src/oci_components.rs). -/
def normalize_digest (digest : String) : String :=
  if str_starts digest "sha256:" then digest else "sha256:" ++ digest

/-- Embeds `is_digest` from src/dist.rs (`s.len()` is the byte length; on the
64-hex ASCII suffix at issue, character count and byte count agree). -/
def is_digest (s : String) : Bool :=
  str_starts s "sha256:" && s.data.length == 7 + 64

/-- Embeds `compute_digest` from src/oci_components.rs
(`format!("sha256:{:x}", Sha256::digest(bytes))`), with the hex encoding of
SHA-256 abstracted as `h`. -/
def compute_digest (h : Bytes → String) (bytes : Bytes) : String :=
  "sha256:" ++ h bytes

/-- Embeds `digest_for_bytes` from src/dist.rs (same body as
`compute_digest`). -/
def digest_for_bytes (h : Bytes → String) (bytes : Bytes) : String :=
  "sha256:" ++ h bytes

/-- Embeds the `metadata.json` sidecar struct `CacheMetadata` from
src/oci_components.rs. -/
structure CacheMetadata where
  original_reference : String
  resolved_digest : String
  media_type : String
  fetched_at_unix_seconds : Nat
  size_bytes : Nat
  manifest_digest : Option String
deriving Repr, DecidableEq

/-- One on-disk cache entry: the `component.wasm` bytes plus the sidecar
(`none` models a missing or unparseable `metadata.json`). -/
structure CacheEntry where
  data : Bytes
  metadata : Option CacheMetadata
deriving Repr, DecidableEq

/-- The cache directory: trimmed 64-hex digest key to entry. -/
abbrev Cache := List (String × CacheEntry)

/-- Decidable equality for `Except`, to evaluate concrete outcomes. -/
instance exceptDecEq {ε α : Type} [DecidableEq ε] [DecidableEq α] :
    DecidableEq (Except ε α) := fun a b =>
  match a, b with
  | .error e1, .error e2 =>
    if h : e1 = e2 then .isTrue (by rw [h])
    else .isFalse (by intro hc; injection hc; contradiction)
  | .error _, .ok _ => .isFalse (by intro hc; exact Except.noConfusion hc)
  | .ok _, .error _ => .isFalse (by intro hc; exact Except.noConfusion hc)
  | .ok a1, .ok a2 =>
    if h : a1 = a2 then .isTrue (by rw [h])
    else .isFalse (by intro hc; injection hc; contradiction)

/-- Replace (or create) the binding for key `k`, modelling writing the files
under the directory named `k`. -/
def cache_set (c : Cache) (k : String) (e : CacheEntry) : Cache :=
  (k, e) :: c.filter (fun p => p.1 != k)

/-- The artifact file path for a cache key, relative to the cache root. -/
def artifact_path_of (key : String) : String :=
  key ++ "/component.wasm"

/-- A `component.wasm` path exists iff some cache entry's artifact path is
that path (models `Path::exists`). -/
def path_exists (c : Cache) (p : String) : Bool :=
  c.any (fun q => artifact_path_of q.1 == p)

/-- Outcome of `oci_distribution::Reference::try_from`: on success we keep the
only field the resolver consults, the optional pinned `@sha256:` digest. -/
structure ParsedRef where
  digest? : Option String
deriving Repr, DecidableEq

/-- Embeds `PulledLayer` from src/oci_components.rs. -/
structure PulledLayer where
  media_type : String
  data : Bytes
  digest? : Option String
deriving Repr, DecidableEq

/-- Embeds `PulledImage` from src/oci_components.rs. -/
structure PulledImage where
  digest? : Option String
  layers : List PulledLayer
deriving Repr, DecidableEq

/-- Embeds `OciComponentError` from src/oci_components.rs (wrapped foreign
source errors are dropped). -/
inductive OciComponentError where
  | InvalidReference (reference reason : String)
  | DigestRequired (reference : String)
  | OfflineTaggedReference (reference : String)
  | OfflineMissing (reference digest : String)
  | MissingLayers (reference : String)
  | MissingComponent (reference media_types : String)
  | DigestMismatch (reference expected actual : String)
  | PullFailed (reference : String)
  | Io (reference : String)
  | Serde (reference : String)
deriving Repr, DecidableEq

/-- Embeds `ResolvedComponent` from src/oci_components.rs; `path` is kept
relative to the cache root. -/
structure ResolvedComponent where
  original_reference : String
  resolved_digest : String
  media_type : String
  path : String
  fetched_from_network : Bool
  manifest_digest : Option String
deriving Repr, DecidableEq

/-- Embeds `ComponentResolveOptions` from src/oci_components.rs. -/
structure ComponentResolveOptions where
  allow_tags : Bool
  offline : Bool
  cache_dir : String
  accepted_manifest_types : List String
  preferred_layer_media_types : List String
deriving Repr, DecidableEq

/-- Embeds `DEFAULT_ACCEPTED_MANIFEST_TYPES` from src/oci_components.rs, with
the `oci_distribution::manifest` constants inlined. -/
def default_accepted_manifest_types : List String :=
  ["application/vnd.oci.artifact.manifest.v1+json",
   "application/vnd.oci.image.manifest.v1+json",
   "application/vnd.oci.image.index.v1+json",
   "application/vnd.docker.distribution.manifest.v2+json",
   "application/vnd.docker.distribution.manifest.list.v2+json",
   "application/vnd.docker.distribution.manifest.v2+json",
   "application/vnd.docker.distribution.manifest.list.v2+json"]

/-- Embeds `DEFAULT_LAYER_MEDIA_TYPES` from src/oci_components.rs. -/
def default_layer_media_types : List String :=
  ["application/vnd.wasm.component.v1+wasm",
   "application/vnd.module.wasm.content.layer.v1+wasm",
   "application/vnd.greentic.component.manifest+json",
   "application/wasm",
   "application/octet-stream"]

/-- The process environment variables the code consults, each `none` when the
variable is unset. -/
structure EnvState where
  dist_cache_dir : Option String
  greentic_home : Option String
  os_cache_dir : Option String
  dist_offline : Option String
deriving Repr, DecidableEq

/-- Embeds `default_cache_root` from src/oci_components.rs:
GREENTIC_DIST_CACHE_DIR first, then `dirs_next::cache_dir()` joined with
greentic/components, then GREENTIC_HOME joined with cache/components, and
last `.greentic/cache/components`. -/
def default_cache_root (env : EnvState) : String :=
  match env.dist_cache_dir with
  | some root => root
  | none =>
    match env.os_cache_dir with
    | some cache => cache ++ "/greentic/components"
    | none =>
      match env.greentic_home with
      | some root => root ++ "/cache/components"
      | none => ".greentic/cache/components"

/-- Modelled from the spec's words (Section 6, environment variables), for
refinement comparison with `default_cache_root`: the spec lists
GREENTIC_DIST_CACHE_DIR first, GREENTIC_HOME as the secondary fallback, the
OS user cache directory third and `.greentic/cache/components` last. -/
def spec_cache_root (env : EnvState) : String :=
  match env.dist_cache_dir with
  | some root => root
  | none =>
    match env.greentic_home with
    | some root => root ++ "/cache/components"
    | none =>
      match env.os_cache_dir with
      | some cache => cache ++ "/greentic/components"
      | none => ".greentic/cache/components"

/-- Embeds `impl Default for ComponentResolveOptions` from
src/oci_components.rs. -/
def ComponentResolveOptions.default_opts (env : EnvState) : ComponentResolveOptions :=
  { allow_tags := false
    offline := false
    cache_dir := default_cache_root env
    accepted_manifest_types := default_accepted_manifest_types
    preferred_layer_media_types := default_layer_media_types }

/-- Embeds `OciCache::try_hit` from src/oci_components.rs. -/
def try_hit (cache : Cache) (digest reference : String) : Option ResolvedComponent :=
  match List.lookup (trim_digest_pre digest) cache with
  | none => none
  | some entry =>
    some { original_reference := reference
           resolved_digest := digest
           media_type := (entry.metadata.map (·.media_type)).getD "application/octet-stream"
           path := artifact_path_of (trim_digest_pre digest)
           fetched_from_network := false
           manifest_digest := entry.metadata.bind (·.manifest_digest) }

/-- Embeds `OciCache::write` from src/oci_components.rs (the filesystem write
is total in the model, so the `Io`/`Serde` failure arms do not arise). -/
def oci_cache_write (cache : Cache) (digest media_type : String) (data : Bytes)
    (reference : String) (manifest_digest : Option String) (now : Nat) :
    String × Cache :=
  let key := trim_digest_pre digest
  let meta : CacheMetadata :=
    { original_reference := reference
      resolved_digest := digest
      media_type := media_type
      fetched_at_unix_seconds := now
      size_bytes := data.length
      manifest_digest := manifest_digest }
  (artifact_path_of key, cache_set cache key { data := data, metadata := some meta })

/-- Embeds the inner loop of `select_layer` from src/oci_components.rs: the
first preferred media type that any layer carries wins, and the first layer
carrying it is returned. -/
def find_preferred (layers : List PulledLayer) : List String → Option PulledLayer
  | [] => none
  | ty :: rest =>
    match layers.find? (fun l => l.media_type == ty) with
    | some layer => some layer
    | none => find_preferred layers rest

/-- Embeds `select_layer` from src/oci_components.rs. -/
def select_layer (layers : List PulledLayer) (preferred_types : List String)
    (reference : String) : Except OciComponentError PulledLayer :=
  match layers with
  | [] => .error (.MissingLayers reference)
  | l0 :: _ =>
    match find_preferred layers preferred_types with
    | some layer => .ok layer
    | none => .ok l0

/-- Embeds the `resolved_digest` computation of
`OciComponentResolver::resolve_single`:
`image.digest.clone().or_else(chosen_layer.digest.clone()).unwrap_or_else(compute_digest)`. -/
def resolved_digest_of (h : Bytes → String) (image : PulledImage)
    (chosen : PulledLayer) : String :=
  match image.digest? with
  | some d => d
  | none =>
    match chosen.digest? with
    | some d => d
    | none => compute_digest h chosen.data

/-- Embeds the pull / select / verify / write tail of
`OciComponentResolver::resolve_single` (after the cache and offline gates);
`pull` is the outcome of `RegistryClient::pull`. -/
def resolve_pull (opts : ComponentResolveOptions) (h : Bytes → String) (now : Nat)
    (cache : Cache) (reference : String) (expected : Option String)
    (pull : Except Unit PulledImage) :
    Except OciComponentError ResolvedComponent × Cache :=
  match pull with
  | .error _ => (.error (.PullFailed reference), cache)
  | .ok image =>
    match select_layer image.layers opts.preferred_layer_media_types reference with
    | .error e => (.error e, cache)
    | .ok chosen =>
      let resolved_digest := resolved_digest_of h image chosen
      let manifest_digest := image.digest?
      match expected with
      | some exp =>
        if exp == resolved_digest then
          let written := oci_cache_write cache resolved_digest chosen.media_type
            chosen.data reference manifest_digest now
          (.ok { original_reference := reference
                 resolved_digest := resolved_digest
                 media_type := chosen.media_type
                 path := written.1
                 fetched_from_network := true
                 manifest_digest := manifest_digest }, written.2)
        else
          (.error (.DigestMismatch reference exp resolved_digest), cache)
      | none =>
        let written := oci_cache_write cache resolved_digest chosen.media_type
          chosen.data reference manifest_digest now
        (.ok { original_reference := reference
               resolved_digest := resolved_digest
               media_type := chosen.media_type
               path := written.1
               fetched_from_network := true
               manifest_digest := manifest_digest }, written.2)

/-- Embeds `OciComponentResolver::resolve_single` from src/oci_components.rs.
`parse` is the outcome of `Reference::try_from` (error payload is the parse
failure message).  The cache is threaded through so that "no write happened"
is expressible: every early-return arm returns the cache unchanged, exactly
as the straight-line Rust performs no filesystem write before
`self.cache.write`. -/
def resolve_single (opts : ComponentResolveOptions) (h : Bytes → String) (now : Nat)
    (cache : Cache) (reference : String) (parse : Except String ParsedRef)
    (pull : Except Unit PulledImage) :
    Except OciComponentError ResolvedComponent × Cache :=
  match parse with
  | .error reason => (.error (.InvalidReference reference reason), cache)
  | .ok parsed =>
    if parsed.digest?.isNone && !opts.allow_tags then
      (.error (.DigestRequired reference), cache)
    else
      match parsed.digest?.map normalize_digest with
      | some d =>
        match try_hit cache d reference with
        | some hit => (.ok hit, cache)
        | none =>
          if opts.offline then
            (.error (.OfflineMissing reference d), cache)
          else
            resolve_pull opts h now cache reference (some d) pull
      | none =>
        if opts.offline then
          (.error (.OfflineTaggedReference reference), cache)
        else
          resolve_pull opts h now cache reference none pull

/-- Embeds `DistOptions` from src/dist.rs. -/
structure DistOptions where
  cache_dir : String
  allow_tags : Bool
  offline : Bool
deriving Repr, DecidableEq

/-- Embeds `impl Default for DistOptions` from src/dist.rs: offline comes from
GREENTIC_DIST_OFFLINE == "1", and `allow_tags` is set to `true`. -/
def DistOptions.default_opts (env : EnvState) : DistOptions :=
  { cache_dir := default_cache_root env
    allow_tags := true
    offline := env.dist_offline == some "1" }

/-- Embeds `ArtifactSource` from src/dist.rs. -/
inductive ArtifactSource where
  | Digest
  | Http (url : String)
  | File (path : String)
  | Oci (reference : String)
  | Repo (target : String)
  | Store (target : String)
deriving Repr, DecidableEq

/-- Embeds `ResolvedArtifact` from src/dist.rs. -/
structure ResolvedArtifact where
  digest : String
  cache_path : Option String
  fetched : Bool
  source : ArtifactSource
deriving Repr, DecidableEq

/-- Embeds `DistError` from src/dist.rs (wrapped foreign payloads of the
`Io`, `Http` and `Serde` arms are dropped). -/
inductive DistError where
  | InvalidReference (reference : String)
  | InvalidInput (msg : String)
  | Offline (reference : String)
  | CacheMiss (reference : String)
  | AuthRequired (target : String)
  | Io
  | Http
  | Oci (e : OciComponentError)
  | Serde
deriving Repr, DecidableEq

/-- Embeds `DistError::exit_code` from src/dist.rs. -/
def DistError.exit_code : DistError → Int
  | .InvalidReference _ => 2
  | .InvalidInput _ => 2
  | .Serde => 2
  | .CacheMiss _ => 3
  | .Offline _ => 4
  | .AuthRequired _ => 5
  | _ => 10

/-- Embeds the `ComponentResolveOptions` built in `DistClient::new`
(`allow_tags`, `offline` and `cache_dir` copied from the `DistOptions`, the
rest from `Default::default()`). -/
def oci_opts_of (opts : DistOptions) : ComponentResolveOptions :=
  { allow_tags := opts.allow_tags
    offline := opts.offline
    cache_dir := opts.cache_dir
    accepted_manifest_types := default_accepted_manifest_types
    preferred_layer_media_types := default_layer_media_types }

/-- Embeds `ComponentCache::component_dir` from src/dist.rs, as the cache
key. -/
def component_key (digest : String) : String :=
  trim_digest_pre (normalize_digest digest)

/-- Embeds `ComponentCache::existing_component` from src/dist.rs. -/
def existing_component (cache : Cache) (digest : String) : Option String :=
  match List.lookup (component_key digest) cache with
  | some _ => some (artifact_path_of (component_key digest))
  | none => none

/-- Embeds `ComponentCache::write_component` from src/dist.rs: it writes only
`component.wasm`, so a pre-existing `metadata.json` in the same directory
survives (modelled by keeping the old entry's sidecar). -/
def write_component (cache : Cache) (digest : String) (data : Bytes) :
    String × Cache :=
  let key := component_key digest
  let old := List.lookup key cache
  (artifact_path_of key,
   cache_set cache key { data := data, metadata := old.bind (·.metadata) })

/-- Embeds `DistClient::fetch_http` from src/dist.rs; `body` is the outcome of
the HTTP GET (status-checked body bytes). -/
def fetch_http (opts : DistOptions) (h : Bytes → String) (cache : Cache)
    (url : String) (body : Except Unit Bytes) :
    Except DistError ResolvedArtifact × Cache :=
  if opts.offline then
    (.error (.Offline url), cache)
  else
    match body with
    | .error _ => (.error .Http, cache)
    | .ok bytes =>
      let digest := digest_for_bytes h bytes
      let written := write_component cache digest bytes
      (.ok { digest := digest
             cache_path := some written.1
             fetched := true
             source := .Http url }, written.2)

/-- Embeds `DistClient::ingest_file` from src/dist.rs; `contents` is the
outcome of `fs::read`. -/
def ingest_file (opts : DistOptions) (h : Bytes → String) (cache : Cache)
    (path : String) (contents : Except Unit Bytes) :
    Except DistError ResolvedArtifact × Cache :=
  match contents with
  | .error _ => (.error .Io, cache)
  | .ok bytes =>
    let digest := digest_for_bytes h bytes
    let written := write_component cache digest bytes
    (.ok { digest := digest
           cache_path := some written.1
           fetched := true
           source := .File path }, written.2)

/-- Embeds `DistClient::pull_oci` from src/dist.rs: the offline gate comes
first, then the single reference is delegated to the OCI resolver
(`resolve_refs` over a one-element list is `resolve_single`), and resolver
errors come back wrapped in `DistError::Oci`. -/
def pull_oci (opts : DistOptions) (h : Bytes → String) (now : Nat) (cache : Cache)
    (reference : String) (parse : Except String ParsedRef)
    (pull : Except Unit PulledImage) :
    Except DistError ResolvedArtifact × Cache :=
  if opts.offline then
    (.error (.Offline reference), cache)
  else
    match resolve_single (oci_opts_of opts) h now cache reference parse pull with
    | (.error e, c') => (.error (.Oci e), c')
    | (.ok rc, c') =>
      (.ok { digest := rc.resolved_digest
             cache_path := some rc.path
             fetched := rc.fetched_from_network
             source := .Oci reference }, c')

/-- Embeds `RefKind` from src/dist.rs (the classification outcome). -/
inductive RefKind where
  | Digest (digest : String)
  | Http (url : String)
  | File (path : String)
  | Oci (reference : String)
  | Repo (target : String)
  | Store (target : String)
deriving Repr, DecidableEq

/-- Embeds the dispatch of `DistClient::resolve_ref` from src/dist.rs, after
classification; the external outcomes (`parse`, `pull`, `body`, `contents`)
feed the arm that needs them. -/
def resolve_ref (opts : DistOptions) (h : Bytes → String) (now : Nat)
    (cache : Cache) (kind : RefKind) (parse : Except String ParsedRef)
    (pull : Except Unit PulledImage) (body : Except Unit Bytes)
    (contents : Except Unit Bytes) :
    Except DistError ResolvedArtifact × Cache :=
  match kind with
  | .Digest digest =>
    (.ok { digest := digest
           cache_path := existing_component cache digest
           fetched := false
           source := .Digest }, cache)
  | .Http url => fetch_http opts h cache url body
  | .File path => ingest_file opts h cache path contents
  | .Oci reference => pull_oci opts h now cache reference parse pull
  | .Repo target => (.error (.AuthRequired target), cache)
  | .Store target => (.error (.AuthRequired target), cache)

/-- Embeds `LockResolvedEntry` from src/dist.rs (the parsed lock entry after
`LockEntry::to_resolved`). -/
structure LockResolvedEntry where
  reference : Option String
  digest : Option String
deriving Repr, DecidableEq

/-- An abstract `DistClient::resolve_ref` step used by the lockfile loop: the
reference string and current cache go in, an outcome and possibly-updated
cache come out. -/
abbrev ResolveStep := String → Cache → Except DistError ResolvedArtifact × Cache

/-- Embeds `DistClient::ensure_cached` from src/dist.rs, parameterized by the
`resolve_ref` step. -/
def ensure_cached_with (R : ResolveStep) (reference : String) (cache : Cache) :
    Except DistError ResolvedArtifact × Cache :=
  match R reference cache with
  | (.error e, c') => (.error e, c')
  | (.ok resolved, c') =>
    match resolved.cache_path with
    | some p =>
      if path_exists c' p then (.ok resolved, c')
      else (.error (.CacheMiss reference), c')
    | none => (.error (.CacheMiss reference), c')

/-- Embeds the digest computation of the `DistClient::pull_lock` loop body:
the entry's explicit digest wins; otherwise offline is an error; otherwise
`resolve_ref(reference).digest` is used. -/
def lock_digest_step (R : ResolveStep) (offline : Bool) (digest? : Option String)
    (reference : String) (cache : Cache) : Except DistError String × Cache :=
  match digest? with
  | some d => (.ok d, cache)
  | none =>
    if offline then (.error (.Offline reference), cache)
    else
      match R reference cache with
      | (.error e, c') => (.error e, c')
      | (.ok r, c') => (.ok r.digest, c')

/-- Embeds the `ensure_cached(cache_key)` with fallback
`ensure_cached(reference)` of the `DistClient::pull_lock` loop body. -/
def lock_item_step (R : ResolveStep) (cache_key reference : String) (c1 : Cache) :
    Except DistError ResolvedArtifact × Cache :=
  match ensure_cached_with R cache_key c1 with
  | (.ok item, c2) => (Except.ok item, c2)
  | (.error _, c2) => ensure_cached_with R reference c2

/-- Embeds one iteration of the `DistClient::pull_lock` loop from src/dist.rs:
obtain the authoritative digest (explicit entry digest, else offline check,
else `resolve_ref(reference).digest`), then `ensure_cached(cache_key)` with
fallback `ensure_cached(reference)`, then override the artifact's digest. -/
def pull_lock_step (R : ResolveStep) (offline : Bool) (entry : LockResolvedEntry)
    (cache : Cache) : Except DistError ResolvedArtifact × Cache :=
  match entry.reference with
  | none => (.error (.InvalidInput "lock entry missing ref"), cache)
  | some reference =>
    match lock_digest_step R offline entry.digest reference cache with
    | (.error e, c') => (.error e, c')
    | (.ok digest, c1) =>
      match lock_item_step R (entry.digest.getD reference) reference c1 with
      | (.error e, c3) => (.error e, c3)
      | (.ok item, c3) => (.ok { item with digest := digest }, c3)

/-- Embeds the `DistClient::pull_lock` loop from src/dist.rs over the parsed
entry list: sequential, in document order, failing fast on the first bad
entry. -/
def pull_lock_entries (R : ResolveStep) (offline : Bool) :
    List LockResolvedEntry → Cache → Except DistError (List ResolvedArtifact) × Cache
  | [], cache => (.ok [], cache)
  | entry :: rest, cache =>
    match pull_lock_step R offline entry cache with
    | (.error e, c1) => (.error e, c1)
    | (.ok art, c1) =>
      match pull_lock_entries R offline rest c1 with
      | (.error e, c2) => (.error e, c2)
      | (.ok arts, c2) => (.ok (art :: arts), c2)

/-- A concrete stand-in for the hex encoding of SHA-256, used by the concrete
evaluations below (the code never relies on any property of the encoding). -/
def h_cafe : Bytes → String := fun _ => "cafe"

/-- A 64-character hex body, first sample. -/
def hexA : String := String.mk (List.replicate 64 'a')

/-- A 64-character hex body, second sample. -/
def hexB : String := String.mk (List.replicate 64 'b')

/-- A normalized digest built on `hexA`. -/
def digA : String := "sha256:" ++ hexA

/-- A normalized digest built on `hexB`. -/
def digB : String := "sha256:" ++ hexB

/-- A sidecar for the pre-cached entry `cacheA`. -/
def metaA : CacheMetadata :=
  { original_reference := "oci-origin"
    resolved_digest := digA
    media_type := "application/wasm"
    fetched_at_unix_seconds := 0
    size_bytes := 1
    manifest_digest := none }

/-- A cache holding the artifact pinned by `digA`. -/
def cacheA : Cache := [(hexA, { data := [7], metadata := some metaA })]

/-- Top-level options with offline set. -/
def optsOffline : DistOptions :=
  { cache_dir := "cache", allow_tags := false, offline := true }

/-- Top-level options with offline unset. -/
def optsOnline : DistOptions :=
  { cache_dir := "cache", allow_tags := true, offline := false }

/-- Resolver options: tags allowed, online. -/
def optsTags : ComponentResolveOptions :=
  { allow_tags := true
    offline := false
    cache_dir := "cache"
    accepted_manifest_types := default_accepted_manifest_types
    preferred_layer_media_types := default_layer_media_types }

/-- Resolver options: tags rejected, online. -/
def optsNoTags : ComponentResolveOptions := { optsTags with allow_tags := false }

/-- Resolver options: tags rejected, offline. -/
def cOptsOffline : ComponentResolveOptions := { optsNoTags with offline := true }

/-- An OCI reference pinned by `digA`. -/
def refA : String := "ghcr.io/greentic/components@" ++ digA

/-- An OCI reference pinned by `digB`. -/
def refB : String := "ghcr.io/greentic/components@" ++ digB

/-- A tag-only OCI reference. -/
def refT : String := "ghcr.io/greentic/components:latest"

/-- A pulled image whose manifest digest and single layer digest are `digA`. -/
def imgA : PulledImage :=
  { digest? := some digA
    layers := [{ media_type := "application/wasm", data := [7], digest? := some digA }] }

/-- A pulled image whose manifest reports `digB` while the single layer's
bytes are `[1, 2, 3]` with no layer digest. -/
def imgB : PulledImage :=
  { digest? := some digB
    layers := [{ media_type := "application/wasm", data := [1, 2, 3], digest? := none }] }

/-- The cache hit `try_hit cacheA digA refA` evaluates to. -/
def hitA : ResolvedComponent :=
  { original_reference := refA
    resolved_digest := digA
    media_type := "application/wasm"
    path := artifact_path_of hexA
    fetched_from_network := false
    manifest_digest := none }

/-- The sidecar written when `imgB` is resolved for `refT`. -/
def metaB : CacheMetadata :=
  { original_reference := refT
    resolved_digest := digB
    media_type := "application/wasm"
    fetched_at_unix_seconds := 0
    size_bytes := 3
    manifest_digest := some digB }

/-- The cache entry written when `imgB` is resolved. -/
def entryB : CacheEntry := { data := [1, 2, 3], metadata := some metaB }

/-- The resolution result for `refT` against `imgB`. -/
def rcB : ResolvedComponent :=
  { original_reference := refT
    resolved_digest := digB
    media_type := "application/wasm"
    path := artifact_path_of hexB
    fetched_from_network := true
    manifest_digest := some digB }

/-- The resolution result for the pinned `refB` against `imgB`. -/
def rcBpin : ResolvedComponent := { rcB with original_reference := refB }

/-- A fixed artifact for the abstract resolve step `REx`. -/
def artD : ResolvedArtifact :=
  { digest := digA
    cache_path := some (artifact_path_of hexA)
    fetched := false
    source := .Digest }

/-- An abstract resolve step returning `artD` and leaving the cache alone. -/
def REx : ResolveStep := fun _ c => (.ok artD, c)

/-- Two lock entries: one digest-pinned, one bare reference. -/
def entriesEx : List LockResolvedEntry :=
  [{ reference := some "r1", digest := some digB },
   { reference := some "r2", digest := none }]

/-- `artD` with its digest overridden by the explicit lock digest. -/
def artDB : ResolvedArtifact := { artD with digest := digB }

/-- A cache already holding an entry at the key the HTTP ingest will write. -/
def cacheH : Cache := [("cafe", { data := [9], metadata := none })]

/-- The artifact returned by ingesting bytes `[1]` over HTTP from `http://u`
under the hash stand-in `h_cafe`. -/
def artHttp : ResolvedArtifact :=
  { digest := "sha256:cafe"
    cache_path := some "cafe/component.wasm"
    fetched := true
    source := .Http "http://u" }

/-- An environment with GREENTIC_HOME and an OS cache directory but no
GREENTIC_DIST_CACHE_DIR. -/
def envH : EnvState :=
  { dist_cache_dir := none
    greentic_home := some "/home/u"
    os_cache_dir := some "/xdg"
    dist_offline := none }

/-- An empty environment. -/
def envNone : EnvState :=
  { dist_cache_dir := none, greentic_home := none, os_cache_dir := none,
    dist_offline := none }

/-- A layer with an unpreferred media type. -/
def layer0 : PulledLayer := { media_type := "other", data := [0], digest? := none }

/-- A layer with the `application/wasm` media type. -/
def layerW : PulledLayer := { media_type := "application/wasm", data := [1], digest? := none }

/-- Looking up the key just written by `cache_set` returns the new entry, also
when the key was already bound: the write overwrites. -/
theorem lookup_cache_set_self (c : Cache) (k : String) (e : CacheEntry) :
    List.lookup k (cache_set c k e) = some e := by
  simp [cache_set, List.lookup]

/-- Every cache hit produced by `try_hit` reports `fetched_from_network = false`. -/
theorem try_hit_fetched_false (cache : Cache) (d r : String) (hit : ResolvedComponent)
    (h : try_hit cache d r = some hit) : hit.fetched_from_network = false := by
  simp only [try_hit] at h
  split at h
  · exact absurd h (by simp)
  · injection h with h2
    rw [← h2]

/-- The loop of `select_layer` returns the layer found for the first preferred
type under which any layer is found. -/
theorem find_preferred_at (layers : List PulledLayer) :
    ∀ (prefs : List String) (i : Nat) (hi : i < prefs.length) (l : PulledLayer),
    (∀ ty ∈ prefs.take i, layers.find? (fun m => m.media_type == ty) = none) →
    layers.find? (fun m => m.media_type == prefs.get ⟨i, hi⟩) = some l →
    find_preferred layers prefs = some l := by
  intro prefs
  induction prefs with
  | nil => intro i hi; simp at hi
  | cons p rest ih =>
    intro i hi l hnone hfind
    cases i with
    | zero =>
      simp only [List.get] at hfind
      simp only [find_preferred, hfind]
    | succ i =>
      have hp : layers.find? (fun m => m.media_type == p) = none := by
        apply hnone
        simp [List.take]
      simp only [find_preferred, hp]
      apply ih i (by simpa using hi) l
      · intro ty hty
        exact hnone ty (by simp [List.take, hty])
      · exact hfind

/-- When no preferred type is carried by any layer the loop of `select_layer`
finds nothing. -/
theorem find_preferred_none (layers : List PulledLayer) :
    ∀ prefs : List String,
    (∀ ty ∈ prefs, layers.find? (fun m => m.media_type == ty) = none) →
    find_preferred layers prefs = none := by
  intro prefs
  induction prefs with
  | nil => intro; rfl
  | cons p rest ih =>
    intro hnone
    have hp := hnone p (by simp)
    simp only [find_preferred, hp]
    exact ih fun ty hty => hnone ty (by simp [hty])

/-- C5: the code's cache-root precedence puts the OS user cache directory
before GREENTIC_HOME, so with both available the claimed precedence (spec
order, `spec_cache_root`) disagrees with `default_cache_root`. -/
theorem c5_counterexample :
    default_cache_root envH = "/xdg/greentic/components" ∧
    spec_cache_root envH = "/home/u/cache/components" ∧
    default_cache_root envH ≠ spec_cache_root envH :=
  ⟨rfl, rfl, by decide⟩

/-- C5 (amended): the default cache root is GREENTIC_DIST_CACHE_DIR when set;
otherwise the OS user cache directory with greentic/components appended;
otherwise GREENTIC_HOME with cache/components appended; and
.greentic/cache/components as the last resort. -/
theorem c5_amended (env : EnvState) :
    (∀ r, env.dist_cache_dir = some r → default_cache_root env = r) ∧
    (env.dist_cache_dir = none → ∀ c, env.os_cache_dir = some c →
      default_cache_root env = c ++ "/greentic/components") ∧
    (env.dist_cache_dir = none → env.os_cache_dir = none → ∀ g,
      env.greentic_home = some g → default_cache_root env = g ++ "/cache/components") ∧
    (env.dist_cache_dir = none → env.os_cache_dir = none → env.greentic_home = none →
      default_cache_root env = ".greentic/cache/components") := by
  refine ⟨?_, ?_, ?_, ?_⟩
  · intro r hr
    simp [default_cache_root, hr]
  · intro h1 c h2
    simp [default_cache_root, h1, h2]
  · intro h1 h2 g h3
    simp [default_cache_root, h1, h2, h3]
  · intro h1 h2 h3
    simp [default_cache_root, h1, h2, h3]

/-- Witness for the amended C5 at a concrete environment. -/
theorem c5_amended_witness :
    default_cache_root envH = "/xdg/greentic/components" :=
  (c5_amended envH).2.1 rfl "/xdg" rfl

/-- C6: the top-level `DistOptions::default` sets `allow_tags` to `true`,
refuting the claim that both defaults are `false`. -/
theorem c6_counterexample :
    (DistOptions.default_opts envNone).allow_tags = true ∧
    ¬ (DistOptions.default_opts envNone).allow_tags = false :=
  ⟨rfl, by decide⟩

/-- C6 (amended): the OCI resolver's default options set `allow_tags` to
`false`, but the top-level client's default options set it to `true`. -/
theorem c6_amended (env : EnvState) :
    (ComponentResolveOptions.default_opts env).allow_tags = false ∧
    (DistOptions.default_opts env).allow_tags = true :=
  ⟨rfl, rfl⟩

/-- C7: a parsed OCI reference with no pinned digest fails with
`DigestRequired` when `allow_tags` is false, for every cache (the cache is
returned untouched and never influences the outcome, so no cache lookup
decides anything) and for every registry outcome (so no pull occurs). -/
theorem c7_tag_rejected (opts : ComponentResolveOptions) (h : Bytes → String)
    (now : Nat) (cache : Cache) (reference : String) (parsed : ParsedRef)
    (pull : Except Unit PulledImage)
    (hd : parsed.digest? = none) (ha : opts.allow_tags = false) :
    resolve_single opts h now cache reference (.ok parsed) pull
      = (.error (.DigestRequired reference), cache) := by
  simp [resolve_single, hd, ha]

/-- Witness for C7 at a concrete tag-only reference. -/
theorem c7_witness :
    (⟨none⟩ : ParsedRef).digest? = none ∧ optsNoTags.allow_tags = false ∧
    resolve_single optsNoTags h_cafe 0 cacheA refT (.ok ⟨none⟩) (.error ())
      = (.error (.DigestRequired refT), cacheA) :=
  ⟨rfl, rfl, c7_tag_rejected optsNoTags h_cafe 0 cacheA refT ⟨none⟩ (.error ()) rfl rfl⟩

/-- C8: `select_layer` fails with `MissingLayers` on an empty layer list;
otherwise it returns the first layer (in layer order) carrying the
highest-priority preferred media type that any layer carries, and the first
layer of the list when no preference matches. -/
theorem c8_layer_selection :
    (∀ (prefs : List String) (reference : String),
      select_layer [] prefs reference = .error (.MissingLayers reference)) ∧
    (∀ (l0 : PulledLayer) (layers : List PulledLayer) (prefs : List String)
      (reference : String) (i : Nat) (hi : i < prefs.length) (l : PulledLayer),
      (∀ ty ∈ prefs.take i, ∀ m ∈ l0 :: layers, m.media_type ≠ ty) →
      (l0 :: layers).find? (fun m => m.media_type == prefs.get ⟨i, hi⟩) = some l →
      select_layer (l0 :: layers) prefs reference = .ok l) ∧
    (∀ (l0 : PulledLayer) (layers : List PulledLayer) (prefs : List String)
      (reference : String),
      (∀ ty ∈ prefs, ∀ m ∈ l0 :: layers, m.media_type ≠ ty) →
      select_layer (l0 :: layers) prefs reference = .ok l0) := by
  refine ⟨fun prefs reference => rfl, ?_, ?_⟩
  · intro l0 layers prefs reference i hi l hnone hfind
    have hfp := find_preferred_at (l0 :: layers) prefs i hi l ?_ hfind
    · simp [select_layer, hfp]
    · intro ty hty
      exact List.find?_eq_none.mpr fun x hx => by simpa using hnone ty hty x hx
  · intro l0 layers prefs reference hno
    have hfp := find_preferred_none (l0 :: layers) prefs ?_
    · simp [select_layer, hfp]
    · intro ty hty
      exact List.find?_eq_none.mpr fun x hx => by simpa using hno ty hty x hx

/-- Witness for C8: with preferences `["x", "application/wasm"]` and layers
`[layer0, layerW]`, the first preference matches nothing, so the second wins
and `layerW` is selected. -/
theorem c8_witness :
    select_layer [layer0, layerW] ["x", "application/wasm"] refT = .ok layerW :=
  c8_layer_selection.2.1 layer0 [layerW] ["x", "application/wasm"] refT 1 (by decide)
    layerW (by decide) (by decide)

/-- C1: with offline set, a digest-pinned OCI reference whose artifact is
cached is nonetheless rejected by the top-level resolver with
`DistError::Offline` — the top-level offline gate fires before any cache
lookup, so the claimed cache-hit success does not happen. -/
theorem c1_counterexample :
    (try_hit cacheA (normalize_digest digA) refA).isSome = true ∧
    optsOffline.offline = true ∧
    pull_oci optsOffline h_cafe 0 cacheA refA (.ok ⟨some digA⟩) (.ok imgA)
      = (.error (.Offline refA), cacheA) :=
  ⟨by decide, rfl, rfl⟩

/-- C1 (amended): the top-level `pull_oci` rejects every OCI reference with
`DistError::Offline` as soon as offline is set, before any cache lookup or
delegation; the cache-lookup-before-offline-gate behaviour exists only inside
the OCI resolver's `resolve_single`, where a pinned-and-cached reference hits
the cache (with `fetched_from_network = false`, no pull, cache unchanged)
even when offline, and a pinned-but-uncached reference yields
`OfflineMissing` when offline. -/
theorem c1_amended :
    (∀ (opts : DistOptions) (h : Bytes → String) (now : Nat) (cache : Cache)
      (reference : String) (parse : Except String ParsedRef)
      (pull : Except Unit PulledImage),
      opts.offline = true →
      pull_oci opts h now cache reference parse pull
        = (.error (.Offline reference), cache)) ∧
    (∀ (opts : ComponentResolveOptions) (h : Bytes → String) (now : Nat)
      (cache : Cache) (reference : String) (parsed : ParsedRef) (d : String)
      (hit : ResolvedComponent) (pull : Except Unit PulledImage),
      parsed.digest? = some d →
      try_hit cache (normalize_digest d) reference = some hit →
      resolve_single opts h now cache reference (.ok parsed) pull = (.ok hit, cache) ∧
        hit.fetched_from_network = false) ∧
    (∀ (opts : ComponentResolveOptions) (h : Bytes → String) (now : Nat)
      (cache : Cache) (reference : String) (parsed : ParsedRef) (d : String)
      (pull : Except Unit PulledImage),
      parsed.digest? = some d →
      try_hit cache (normalize_digest d) reference = none →
      opts.offline = true →
      resolve_single opts h now cache reference (.ok parsed) pull
        = (.error (.OfflineMissing reference (normalize_digest d)), cache)) := by
  refine ⟨?_, ?_, ?_⟩
  · intro opts h now cache reference parse pull hoff
    simp [pull_oci, hoff]
  · intro opts h now cache reference parsed d hit pull hd hhit
    refine ⟨?_, try_hit_fetched_false cache (normalize_digest d) reference hit hhit⟩
    simp [resolve_single, hd, hhit]
  · intro opts h now cache reference parsed d pull hd hhit hoff
    simp [resolve_single, hd, hhit, hoff]

/-- Witness for the amended C1: the offline top-level gate fires on a cached
pinned reference, while the resolver itself serves the same reference from
the cache even offline. -/
theorem c1_amended_witness :
    pull_oci optsOffline h_cafe 0 cacheA refA (.ok ⟨some digA⟩) (.error ())
      = (.error (.Offline refA), cacheA) ∧
    resolve_single cOptsOffline h_cafe 0 cacheA refA (.ok ⟨some digA⟩) (.error ())
      = (.ok hitA, cacheA) :=
  ⟨c1_amended.1 optsOffline h_cafe 0 cacheA refA (.ok ⟨some digA⟩) (.error ()) rfl,
   (c1_amended.2.1 cOptsOffline h_cafe 0 cacheA refA ⟨some digA⟩ digA hitA
     (.error ()) rfl (by decide)).1⟩

/-- The only error `select_layer` produces is `MissingLayers` for the
reference being resolved. -/
theorem select_layer_error_shape (layers : List PulledLayer) (prefs : List String)
    (reference : String) (e : OciComponentError)
    (h : select_layer layers prefs reference = .error e) :
    e = .MissingLayers reference := by
  cases layers with
  | nil =>
    simp only [select_layer] at h
    injection h with h1
    exact h1.symm
  | cons l0 rest =>
    simp only [select_layer] at h
    split at h
    · exact Except.noConfusion h
    · exact Except.noConfusion h

/-- The pull / select / verify / write tail never produces an offline
error. -/
theorem resolve_pull_no_offline_error (opts : ComponentResolveOptions)
    (h : Bytes → String) (now : Nat) (cache : Cache) (reference : String)
    (expected : Option String) (pull : Except Unit PulledImage)
    (e : OciComponentError) (c' : Cache)
    (hres : resolve_pull opts h now cache reference expected pull = (.error e, c')) :
    (∀ r d, e ≠ .OfflineMissing r d) ∧ (∀ r, e ≠ .OfflineTaggedReference r) := by
  simp only [resolve_pull] at hres
  split at hres
  · simp only [Prod.mk.injEq, Except.error.injEq] at hres
    obtain ⟨he, _⟩ := hres
    subst he
    refine ⟨fun r d hh => ?_, fun r hh => ?_⟩ <;> injection hh
  · rename_i image
    split at hres
    · rename_i e' hsel
      simp only [Prod.mk.injEq, Except.error.injEq] at hres
      obtain ⟨he, _⟩ := hres
      have hshape := select_layer_error_shape image.layers
        opts.preferred_layer_media_types reference e' hsel
      rw [he] at hshape
      subst hshape
      refine ⟨fun r d hh => ?_, fun r hh => ?_⟩ <;> injection hh
    · rename_i chosen hsel
      split at hres
      · split at hres
        · simp only [Prod.mk.injEq] at hres
          exact Except.noConfusion hres.1
        · simp only [Prod.mk.injEq, Except.error.injEq] at hres
          obtain ⟨he, _⟩ := hres
          subst he
          refine ⟨fun r d hh => ?_, fun r hh => ?_⟩ <;> injection hh
      · simp only [Prod.mk.injEq] at hres
        exact Except.noConfusion hres.1

/-- With offline unset, `resolve_single` never produces an offline error. -/
theorem resolve_single_no_offline_error (opts : ComponentResolveOptions)
    (h : Bytes → String) (now : Nat) (cache : Cache) (reference : String)
    (parse : Except String ParsedRef) (pull : Except Unit PulledImage)
    (e : OciComponentError) (c' : Cache)
    (hoff : opts.offline = false)
    (hres : resolve_single opts h now cache reference parse pull = (.error e, c')) :
    (∀ r d, e ≠ .OfflineMissing r d) ∧ (∀ r, e ≠ .OfflineTaggedReference r) := by
  simp only [resolve_single] at hres
  split at hres
  · simp only [Prod.mk.injEq, Except.error.injEq] at hres
    obtain ⟨he, _⟩ := hres
    subst he
    refine ⟨fun r d hh => ?_, fun r hh => ?_⟩ <;> injection hh
  · split at hres
    · simp only [Prod.mk.injEq, Except.error.injEq] at hres
      obtain ⟨he, _⟩ := hres
      subst he
      refine ⟨fun r d hh => ?_, fun r hh => ?_⟩ <;> injection hh
    · split at hres
      · split at hres
        · simp only [Prod.mk.injEq] at hres
          exact Except.noConfusion hres.1
        · split at hres
          · rename_i hcond
            exact absurd hcond (by simp [hoff])
          · exact resolve_pull_no_offline_error opts h now cache reference _ pull _ c' hres
      · split at hres
        · rename_i hcond
          exact absurd hcond (by simp [hoff])
        · exact resolve_pull_no_offline_error opts h now cache reference none pull _ c' hres

/-- C4: `exit_code` maps invalid reference, invalid input and JSON errors to
2, cache miss to 3, offline to 4, auth required to 5, and I/O, HTTP and OCI
errors to 10; every offline violation the top-level resolver can produce for
an OCI reference (pinned-but-uncached as well as tag-only, both gated in
`pull_oci`) surfaces as `DistError::Offline` with exit code 4, and the
resolver can never surface an OCI offline error wrapped in `DistError::Oci`
(which would have exit code 10). -/
theorem c4_exit_code_contract :
    (∀ r, (DistError.InvalidReference r).exit_code = 2) ∧
    (∀ m, (DistError.InvalidInput m).exit_code = 2) ∧
    DistError.Serde.exit_code = 2 ∧
    (∀ r, (DistError.CacheMiss r).exit_code = 3) ∧
    (∀ r, (DistError.Offline r).exit_code = 4) ∧
    (∀ t, (DistError.AuthRequired t).exit_code = 5) ∧
    DistError.Io.exit_code = 10 ∧
    DistError.Http.exit_code = 10 ∧
    (∀ e, (DistError.Oci e).exit_code = 10) ∧
    (∀ (opts : DistOptions) (h : Bytes → String) (now : Nat) (cache : Cache)
      (reference : String) (parse : Except String ParsedRef)
      (pull : Except Unit PulledImage),
      opts.offline = true →
      pull_oci opts h now cache reference parse pull
        = (.error (.Offline reference), cache) ∧
      (DistError.Offline reference).exit_code = 4) ∧
    (∀ (opts : DistOptions) (h : Bytes → String) (now : Nat) (cache : Cache)
      (reference : String) (parse : Except String ParsedRef)
      (pull : Except Unit PulledImage) (e : OciComponentError) (c' : Cache),
      pull_oci opts h now cache reference parse pull = (.error (.Oci e), c') →
      (∀ r d, e ≠ .OfflineMissing r d) ∧ (∀ r, e ≠ .OfflineTaggedReference r)) := by
  refine ⟨fun r => rfl, fun m => rfl, rfl, fun r => rfl, fun r => rfl, fun t => rfl,
    rfl, rfl, fun e => rfl, ?_, ?_⟩
  · intro opts h now cache reference parse pull hoff
    exact ⟨by simp [pull_oci, hoff], rfl⟩
  · intro opts h now cache reference parse pull e c' hres
    simp only [pull_oci] at hres
    split at hres
    · simp only [Prod.mk.injEq, Except.error.injEq] at hres
      exact absurd hres.1 (by simp)
    · rename_i hcond
      split at hres
      · rename_i e2 c2 hrs
        simp only [Prod.mk.injEq, Except.error.injEq, DistError.Oci.injEq] at hres
        obtain ⟨he, _⟩ := hres
        subst he
        have hoff2 : (oci_opts_of opts).offline = false := by
          simp only [oci_opts_of]
          simpa using hcond
        exact resolve_single_no_offline_error (oci_opts_of opts) h now cache
          reference parse pull _ c2 hoff2 hrs
      · simp only [Prod.mk.injEq] at hres
        exact Except.noConfusion hres.1

/-- Witness for C4: a concrete offline OCI resolution surfaces
`DistError::Offline` with exit code 4. -/
theorem c4_witness :
    pull_oci optsOffline h_cafe 0 cacheA refA (.ok ⟨some digA⟩) (.error ())
      = (.error (.Offline refA), cacheA) ∧
    (DistError.Offline refA).exit_code = 4 :=
  c4_exit_code_contract.2.2.2.2.2.2.2.2.2.1 optsOffline h_cafe 0 cacheA refA
    (.ok ⟨some digA⟩) (.error ()) rfl

/-- C10: for Http and File reference kinds, `resolve_ref` dispatches to
`fetch_http` / `ingest_file`, which (offline gate aside, for Http)
unconditionally fetch or read the bytes, rewrite the cache entry for the
computed digest — overwriting any entry already present at that key — and
return `fetched = true`; the returned artifact never depends on the prior
cache contents, so the cache is never consulted before fetching. -/
theorem c10_http_file_unconditional :
    (∀ (opts : DistOptions) (h : Bytes → String) (cache : Cache) (url : String)
      (bytes : Bytes),
      opts.offline = false →
      fetch_http opts h cache url (.ok bytes)
        = (.ok { digest := digest_for_bytes h bytes
                 cache_path := some (artifact_path_of (component_key (digest_for_bytes h bytes)))
                 fetched := true
                 source := .Http url },
           cache_set cache (component_key (digest_for_bytes h bytes))
             { data := bytes
               metadata := (List.lookup (component_key (digest_for_bytes h bytes)) cache).bind
                 (·.metadata) })) ∧
    (∀ (opts : DistOptions) (h : Bytes → String) (cache : Cache) (path : String)
      (bytes : Bytes),
      ingest_file opts h cache path (.ok bytes)
        = (.ok { digest := digest_for_bytes h bytes
                 cache_path := some (artifact_path_of (component_key (digest_for_bytes h bytes)))
                 fetched := true
                 source := .File path },
           cache_set cache (component_key (digest_for_bytes h bytes))
             { data := bytes
               metadata := (List.lookup (component_key (digest_for_bytes h bytes)) cache).bind
                 (·.metadata) })) ∧
    (∀ (cache : Cache) (k : String) (e : CacheEntry),
      List.lookup k (cache_set cache k e) = some e) ∧
    (∀ (opts : DistOptions) (h : Bytes → String) (c1 c2 : Cache) (url : String)
      (body : Except Unit Bytes),
      opts.offline = false →
      (fetch_http opts h c1 url body).1 = (fetch_http opts h c2 url body).1) ∧
    (∀ (opts : DistOptions) (h : Bytes → String) (c1 c2 : Cache) (path : String)
      (contents : Except Unit Bytes),
      (ingest_file opts h c1 path contents).1 = (ingest_file opts h c2 path contents).1) ∧
    (∀ (opts : DistOptions) (h : Bytes → String) (now : Nat) (cache : Cache)
      (url path : String) (parse : Except String ParsedRef)
      (pull : Except Unit PulledImage) (body contents : Except Unit Bytes),
      resolve_ref opts h now cache (.Http url) parse pull body contents
        = fetch_http opts h cache url body ∧
      resolve_ref opts h now cache (.File path) parse pull body contents
        = ingest_file opts h cache path contents) := by
  refine ⟨?_, ?_, ?_, ?_, ?_, ?_⟩
  · intro opts h cache url bytes hoff
    simp [fetch_http, hoff, write_component]
  · intro opts h cache path bytes
    simp [ingest_file, write_component]
  · intro cache k e
    exact lookup_cache_set_self cache k e
  · intro opts h c1 c2 url body hoff
    cases body with
    | error u => simp [fetch_http, hoff]
    | ok bytes => simp [fetch_http, hoff, write_component]
  · intro opts h c1 c2 path contents
    cases contents with
    | error u => simp [ingest_file]
    | ok bytes => simp [ingest_file, write_component]
  · intro opts h now cache url path parse pull body contents
    exact ⟨rfl, rfl⟩

/-- Witness for C10: an HTTP ingest over a cache that already holds an entry
at the target key rewrites that entry and reports `fetched = true`. -/
theorem c10_witness :
    optsOnline.offline = false ∧
    fetch_http optsOnline h_cafe cacheH "http://u" (.ok [1])
      = (.ok artHttp, [("cafe", { data := [1], metadata := none })]) := by
  refine ⟨rfl, ?_⟩
  rw [c10_http_file_unconditional.1 optsOnline h_cafe cacheH "http://u" [1] rfl]
  decide

/-- A successful digest stage of the lockfile loop: an explicit digest passes
through verbatim with the cache untouched; a missing digest is obtained from
a successful `resolve_ref` call. -/
theorem lock_digest_step_ok (R : ResolveStep) (offline : Bool)
    (digest? : Option String) (reference : String) (cache : Cache)
    (dg : String) (c' : Cache)
    (hds : lock_digest_step R offline digest? reference cache = (.ok dg, c')) :
    (∀ d, digest? = some d → dg = d ∧ c' = cache) ∧
    (digest? = none → ∃ res, R reference cache = (.ok res, c') ∧ dg = res.digest) := by
  cases digest? with
  | some d =>
    simp only [lock_digest_step, Prod.mk.injEq, Except.ok.injEq] at hds
    obtain ⟨h1, h2⟩ := hds
    refine ⟨fun d' hd' => ?_, fun hn => Option.noConfusion hn⟩
    injection hd' with h3
    subst h3
    exact ⟨h1.symm, h2.symm⟩
  | none =>
    simp only [lock_digest_step] at hds
    split at hds
    · simp only [Prod.mk.injEq] at hds
      exact Except.noConfusion hds.1
    · cases hR : R reference cache with
      | mk fst c2 =>
        rw [hR] at hds
        cases fst with
        | error e =>
          simp only [Prod.mk.injEq] at hds
          exact Except.noConfusion hds.1
        | ok res =>
          simp only [Prod.mk.injEq, Except.ok.injEq] at hds
          obtain ⟨h1, h2⟩ := hds
          subst h2
          exact ⟨fun d' hd' => Option.noConfusion hd', fun _ => ⟨res, rfl, h1.symm⟩⟩

/-- The digest recorded by one lockfile-loop iteration: the entry's explicit
digest verbatim when present; otherwise the digest of the artifact returned
by a successful `resolve_ref` call performed on the entry's reference. -/
theorem pull_lock_step_digest (R : ResolveStep) (offline : Bool)
    (entry : LockResolvedEntry) (cache c1 : Cache) (art : ResolvedArtifact)
    (hstep : pull_lock_step R offline entry cache = (.ok art, c1)) :
    (∀ d, entry.digest = some d → art.digest = d) ∧
    (entry.digest = none →
      ∃ r ca res cb, entry.reference = some r ∧ R r ca = (.ok res, cb) ∧
        art.digest = res.digest) := by
  simp only [pull_lock_step] at hstep
  split at hstep
  · simp only [Prod.mk.injEq] at hstep
    exact Except.noConfusion hstep.1
  · rename_i reference href
    cases hds : lock_digest_step R offline entry.digest reference cache with
    | mk dres c1' =>
      cases dres with
      | error e =>
        simp only [hds, Prod.mk.injEq] at hstep
        exact Except.noConfusion hstep.1
      | ok dg =>
        simp only [hds] at hstep
        cases hit : lock_item_step R (entry.digest.getD reference) reference c1' with
        | mk ires c3 =>
          cases ires with
          | error e =>
            simp only [hit, Prod.mk.injEq] at hstep
            exact Except.noConfusion hstep.1
          | ok item =>
            simp only [hit, Prod.mk.injEq, Except.ok.injEq] at hstep
            obtain ⟨ha, hc⟩ := hstep
            subst ha
            obtain ⟨hsome, hnone⟩ := lock_digest_step_ok R offline entry.digest
              reference cache dg c1' hds
            refine ⟨fun d hd => (hsome d hd).1, fun hd => ?_⟩
            obtain ⟨res, hR, hdg⟩ := hnone hd
            exact ⟨reference, cache, res, c1', href, hR, hdg⟩

/-- C9: on success, `pull_lock` returns one artifact per lock entry, in entry
order; the i-th artifact's digest is the i-th entry's explicit digest when
present and the digest computed by a `resolve_ref` call on the entry's
reference otherwise. -/
theorem c9_pull_lock (R : ResolveStep) (offline : Bool) :
    ∀ (entries : List LockResolvedEntry) (cache cache' : Cache)
      (arts : List ResolvedArtifact),
      pull_lock_entries R offline entries cache = (.ok arts, cache') →
      arts.length = entries.length ∧
      ∀ (i : Nat) (entry : LockResolvedEntry), entries.get? i = some entry →
        ∃ art, arts.get? i = some art ∧
          (∀ d, entry.digest = some d → art.digest = d) ∧
          (entry.digest = none →
            ∃ r ca res cb, entry.reference = some r ∧ R r ca = (.ok res, cb) ∧
              art.digest = res.digest) := by
  intro entries
  induction entries with
  | nil =>
    intro cache cache' arts hres
    simp only [pull_lock_entries, Prod.mk.injEq, Except.ok.injEq] at hres
    obtain ⟨harts, _⟩ := hres
    subst harts
    exact ⟨rfl, fun i entry h => by simp at h⟩
  | cons e rest ih =>
    intro cache cache' arts hres
    simp only [pull_lock_entries] at hres
    cases hstep : pull_lock_step R offline e cache with
    | mk fst c1 =>
      simp only [hstep] at hres
      cases fst with
      | error err => simp at hres
      | ok a =>
        cases hrec : pull_lock_entries R offline rest c1 with
        | mk fst2 c2 =>
          simp only [hrec] at hres
          cases fst2 with
          | error err => simp at hres
          | ok arts' =>
            simp only [Prod.mk.injEq, Except.ok.injEq] at hres
            obtain ⟨harts, hc⟩ := hres
            subst harts
            obtain ⟨hlen, hind⟩ := ih c1 c2 arts' hrec
            refine ⟨by simp [hlen], ?_⟩
            intro i entry hget
            cases i with
            | zero =>
              simp only [List.get?] at hget
              injection hget with hget
              subst hget
              obtain ⟨h1, h2⟩ := pull_lock_step_digest R offline e cache c1 a hstep
              exact ⟨a, rfl, h1, h2⟩
            | succ i =>
              simp only [List.get?] at hget
              obtain ⟨art, hart, hrest⟩ := hind i entry hget
              exact ⟨art, by simpa using hart, hrest⟩

/-- Witness for C9: a two-entry lockfile (one pinned, one bare) resolves in
order and the theorem's length conclusion holds at it. -/
theorem c9_witness :
    pull_lock_entries REx false entriesEx cacheA = (.ok [artDB, artD], cacheA) ∧
    [artDB, artD].length = entriesEx.length :=
  ⟨by decide, (c9_pull_lock REx false entriesEx cacheA cacheA [artDB, artD] (by decide)).1⟩

/-- Looking up the key just written by `OciCache::write` yields the entry
holding the written bytes and sidecar. -/
theorem oci_cache_write_lookup (cache : Cache) (digest media_type : String)
    (data : Bytes) (reference : String) (manifest_digest : Option String)
    (now : Nat) :
    List.lookup (trim_digest_pre digest)
      (oci_cache_write cache digest media_type data reference manifest_digest now).2
      = some { data := data
               metadata := some { original_reference := reference
                                  resolved_digest := digest
                                  media_type := media_type
                                  fetched_at_unix_seconds := now
                                  size_bytes := data.length
                                  manifest_digest := manifest_digest } } := by
  simp only [oci_cache_write]
  exact lookup_cache_set_self _ _ _

/-- Shape of a successful pull / select / verify / write tail: the chosen
layer comes from `select_layer`, the resolved digest from the
manifest-digest-first chain, and the new cache is the one written by
`OciCache::write` for the chosen layer under the resolved digest. -/
theorem resolve_pull_ok_spec (opts : ComponentResolveOptions) (h : Bytes → String)
    (now : Nat) (cache : Cache) (reference : String) (expected : Option String)
    (image : PulledImage) (rc : ResolvedComponent) (c' : Cache)
    (hres : resolve_pull opts h now cache reference expected (.ok image) = (.ok rc, c')) :
    ∃ chosen, select_layer image.layers opts.preferred_layer_media_types reference
        = .ok chosen ∧
      rc = { original_reference := reference
             resolved_digest := resolved_digest_of h image chosen
             media_type := chosen.media_type
             path := (oci_cache_write cache (resolved_digest_of h image chosen)
               chosen.media_type chosen.data reference image.digest? now).1
             fetched_from_network := true
             manifest_digest := image.digest? } ∧
      c' = (oci_cache_write cache (resolved_digest_of h image chosen)
        chosen.media_type chosen.data reference image.digest? now).2 := by
  simp only [resolve_pull] at hres
  cases hsel : select_layer image.layers opts.preferred_layer_media_types reference with
  | error e =>
    simp only [hsel, Prod.mk.injEq] at hres
    exact Except.noConfusion hres.1
  | ok chosen =>
    simp only [hsel] at hres
    refine ⟨chosen, rfl, ?_⟩
    cases expected with
    | none =>
      simp only [Prod.mk.injEq, Except.ok.injEq] at hres
      obtain ⟨h1, h2⟩ := hres
      exact ⟨h1.symm, h2.symm⟩
    | some exp =>
      cases hcmp : exp == resolved_digest_of h image chosen with
      | false =>
        simp only [hcmp, Bool.false_eq_true, if_false, Prod.mk.injEq] at hres
        exact Except.noConfusion hres.1
      | true =>
        simp only [hcmp, eq_self_iff_true, if_true, Prod.mk.injEq,
          Except.ok.injEq] at hres
        obtain ⟨h1, h2⟩ := hres
        exact ⟨h1.symm, h2.symm⟩

/-- C2: an OCI resolution whose image reports a manifest digest writes a
cache entry whose `resolved_digest` is that manifest digest, while the stored
bytes are the chosen layer's bytes — and their hash need not agree, so the
claimed content-addressing invariant fails on the OCI path. -/
theorem c2_counterexample :
    (resolve_single optsTags h_cafe 0 [] refT (.ok ⟨none⟩) (.ok imgB)).1 = .ok rcB ∧
    List.lookup hexB (resolve_single optsTags h_cafe 0 [] refT (.ok ⟨none⟩) (.ok imgB)).2
      = some entryB ∧
    entryB.metadata = some metaB ∧
    metaB.resolved_digest = digB ∧
    digest_for_bytes h_cafe entryB.data ≠ digB :=
  ⟨by decide, by decide, rfl, rfl, by decide⟩

/-- C2 (amended): the content-addressing invariant
SHA-256(component.wasm) = resolved_digest holds for every entry written by
the HTTP and file ingest paths; on the OCI path the written resolved digest
is the manifest-reported digest, else the chosen layer's reported digest,
else the hash of the layer bytes, so the invariant is guaranteed only when
neither the image nor the chosen layer reports a digest. -/
theorem c2_amended :
    (∀ (opts : DistOptions) (h : Bytes → String) (cache : Cache) (url : String)
      (bytes : Bytes) (art : ResolvedArtifact) (c' : Cache),
      opts.offline = false →
      fetch_http opts h cache url (.ok bytes) = (.ok art, c') →
      art.digest = digest_for_bytes h bytes ∧
      ∃ e, List.lookup (component_key art.digest) c' = some e ∧
        digest_for_bytes h e.data = art.digest) ∧
    (∀ (opts : DistOptions) (h : Bytes → String) (cache : Cache) (path : String)
      (bytes : Bytes) (art : ResolvedArtifact) (c' : Cache),
      ingest_file opts h cache path (.ok bytes) = (.ok art, c') →
      art.digest = digest_for_bytes h bytes ∧
      ∃ e, List.lookup (component_key art.digest) c' = some e ∧
        digest_for_bytes h e.data = art.digest) ∧
    (∀ (opts : ComponentResolveOptions) (h : Bytes → String) (now : Nat)
      (cache : Cache) (reference : String) (parse : Except String ParsedRef)
      (image : PulledImage) (rc : ResolvedComponent) (c' : Cache),
      resolve_single opts h now cache reference parse (.ok image) = (.ok rc, c') →
      rc.fetched_from_network = true →
      ∃ chosen, select_layer image.layers opts.preferred_layer_media_types reference
          = .ok chosen ∧
        rc.resolved_digest = resolved_digest_of h image chosen ∧
        List.lookup (trim_digest_pre rc.resolved_digest) c' = some
          { data := chosen.data
            metadata := some { original_reference := reference
                               resolved_digest := rc.resolved_digest
                               media_type := chosen.media_type
                               fetched_at_unix_seconds := now
                               size_bytes := chosen.data.length
                               manifest_digest := image.digest? } } ∧
        (image.digest? = none → chosen.digest? = none →
          digest_for_bytes h chosen.data = rc.resolved_digest)) := by
  refine ⟨?_, ?_, ?_⟩
  · intro opts h cache url bytes art c' hoff hres
    simp only [fetch_http, hoff, Bool.false_eq_true, if_false, write_component,
      Prod.mk.injEq, Except.ok.injEq] at hres
    obtain ⟨h1, h2⟩ := hres
    subst h2
    rw [← h1]
    exact ⟨rfl, ⟨_, lookup_cache_set_self cache _ _, rfl⟩⟩
  · intro opts h cache path bytes art c' hres
    simp only [ingest_file, write_component, Prod.mk.injEq, Except.ok.injEq] at hres
    obtain ⟨h1, h2⟩ := hres
    subst h2
    rw [← h1]
    exact ⟨rfl, ⟨_, lookup_cache_set_self cache _ _, rfl⟩⟩
  · intro opts h now cache reference parse image rc c' hres hfetched
    simp only [resolve_single] at hres
    split at hres
    · simp only [Prod.mk.injEq] at hres
      exact Except.noConfusion hres.1
    · split at hres
      · simp only [Prod.mk.injEq] at hres
        exact Except.noConfusion hres.1
      · split at hres
        · split at hres
          · rename_i hit hhit
            simp only [Prod.mk.injEq, Except.ok.injEq] at hres
            obtain ⟨hh, hc⟩ := hres
            have hf := try_hit_fetched_false _ _ _ hit hhit
            rw [hh] at hf
            rw [hf] at hfetched
            exact Bool.noConfusion hfetched
          · split at hres
            · simp only [Prod.mk.injEq] at hres
              exact Except.noConfusion hres.1
            · obtain ⟨chosen, hsel, hrc, hc'⟩ :=
                resolve_pull_ok_spec opts h now cache reference _ image rc c' hres
              subst hrc
              subst hc'
              refine ⟨chosen, hsel, rfl, ?_, ?_⟩
              · exact oci_cache_write_lookup cache _ _ _ _ _ _
              · intro hid hcd
                simp [resolved_digest_of, hid, hcd, compute_digest, digest_for_bytes]
        · split at hres
          · simp only [Prod.mk.injEq] at hres
            exact Except.noConfusion hres.1
          · obtain ⟨chosen, hsel, hrc, hc'⟩ :=
              resolve_pull_ok_spec opts h now cache reference none image rc c' hres
            subst hrc
            subst hc'
            refine ⟨chosen, hsel, rfl, ?_, ?_⟩
            · exact oci_cache_write_lookup cache _ _ _ _ _ _
            · intro hid hcd
              simp [resolved_digest_of, hid, hcd, compute_digest, digest_for_bytes]

/-- Witness for the amended C2: a concrete HTTP ingest has digest equal to
the hash of the fetched bytes. -/
theorem c2_amended_witness :
    artHttp.digest = digest_for_bytes h_cafe [1] :=
  (c2_amended.1 optsOnline h_cafe cacheH "http://u" [1] artHttp
    [("cafe", { data := [1], metadata := none })] rfl (by decide)).1

/-- C3: when the registry's manifest-reported digest equals the pin but the
returned layer bytes hash differently, resolution succeeds and a cache entry
is created for those bytes — no `DigestMismatch` is raised, refuting the
claim that a bytes-digest disagreement always fails without a cache write. -/
theorem c3_counterexample :
    digest_for_bytes h_cafe [1, 2, 3] ≠ normalize_digest digB ∧
    (resolve_single optsTags h_cafe 0 [] refB (.ok ⟨some digB⟩) (.ok imgB)).1
      = .ok rcBpin ∧
    (List.lookup hexB
      (resolve_single optsTags h_cafe 0 [] refB (.ok ⟨some digB⟩) (.ok imgB)).2).isSome
      = true :=
  ⟨by decide, by decide, by decide⟩

/-- C3 (amended): a pinned resolution fails with `DigestMismatch` — carrying
the normalized pin and the computed resolved digest, and leaving the cache
unchanged (no entry written) — exactly when the computed resolved digest
(manifest-reported, else layer-reported, else hash of the layer bytes)
differs from the pin. -/
theorem c3_amended (opts : ComponentResolveOptions) (h : Bytes → String) (now : Nat)
    (cache : Cache) (reference : String) (parsed : ParsedRef) (d : String)
    (image : PulledImage) (chosen : PulledLayer)
    (hd : parsed.digest? = some d)
    (hhit : try_hit cache (normalize_digest d) reference = none)
    (hoff : opts.offline = false)
    (hsel : select_layer image.layers opts.preferred_layer_media_types reference
      = .ok chosen)
    (hne : normalize_digest d ≠ resolved_digest_of h image chosen) :
    resolve_single opts h now cache reference (.ok parsed) (.ok image)
      = (.error (.DigestMismatch reference (normalize_digest d)
          (resolved_digest_of h image chosen)), cache) := by
  have hb : (normalize_digest d == resolved_digest_of h image chosen) = false := by
    simpa using hne
  simp [resolve_single, hd, hhit, hoff, resolve_pull, hsel, hb]

/-- Witness for the amended C3 at a concrete mismatching pin. -/
theorem c3_amended_witness :
    resolve_single optsTags h_cafe 0 [] refA (.ok ⟨some digA⟩) (.ok imgB)
      = (.error (.DigestMismatch refA (normalize_digest digA)
          (resolved_digest_of h_cafe imgB
            { media_type := "application/wasm", data := [1, 2, 3], digest? := none })),
         []) :=
  c3_amended optsTags h_cafe 0 [] refA ⟨some digA⟩ digA imgB
    { media_type := "application/wasm", data := [1, 2, 3], digest? := none }
    rfl (by decide) rfl (by decide) (by decide)
